import Mathlib

/-!
Shallow embedding of the subscription service (Go, `subscription-service`):
the record store (`PostgresRepository`) and the validation/request layer
(`SubscriptionHandler`).  The relational table is a `List Subscription`
(list order = storage-native row order); each SQL statement is embedded as
a pure function on that list.  Clock reads (`time.Now()`) and freshly
generated identifiers (`uuid.New()`) are passed in as explicit parameters,
one per call site in the source.  UUID values are abstracted as `Nat`;
timestamps as `Nat`; the `user_id` column is kept as the string form it is
compared against.
-/

namespace SubscribeService

/-- The `Subscription` row, following the `subscriptions` table of
`migrations/001_create_subscriptions_table.sql` and the field usage of the
handlers and repository (the Go `models` struct itself is in the absent
`internal/model` package; its fields are fully determined by that usage and
by spec §3). -/
structure Subscription where
  id : Nat
  service_name : String
  price : Int
  user_id : String
  start_date : String
  end_date : Option String
  created_at : Nat
  updated_at : Nat
deriving DecidableEq, Repr

/-- `models.CreateSubscriptionRequest`: the JSON body of POST /subscriptions,
fields as read by `CreateSubscription`. -/
structure CreateSubscriptionRequest where
  service_name : String
  price : Int
  user_id : String
  start_date : String
  end_date : Option String
deriving DecidableEq, Repr

/-- `models.UpdateSubscriptionRequest`: the JSON body of PATCH
/subscriptions/:id; a `none` field was not supplied in the body. -/
structure UpdateSubscriptionRequest where
  service_name : Option String
  price : Option Int
  end_date : Option String
deriving DecidableEq, Repr

/-- `models.SubscriptionFilter`, as built by `getStringPointer` from query
parameters: `none` means the field is absent. -/
structure SubscriptionFilter where
  user_id : Option String
  service_name : Option String
  start_date : Option String
  end_date : Option String
deriving DecidableEq, Repr

/-- Go `getStringPointer`: maps the empty string to `nil` (absent). -/
def getStringPointer (s : String) : Option String :=
  if s = "" then none else some s

/-- Byte-wise (code-point) lexicographic `≤` on char lists: the order the
SQL engine uses to compare the `VARCHAR(7)` date columns under C collation
(for "MM-YYYY" strings, digit-by-digit). -/
def chListLe : List Char → List Char → Bool
  | [], _ => true
  | _ :: _, [] => false
  | a :: as, b :: bs =>
    if a.toNat < b.toNat then true
    else if a.toNat = b.toNat then chListLe as bs
    else false

/-- String `≤` as issued by the SQL `<=` / `>=` comparisons on date
columns: raw lexicographic order on the characters. -/
def strLe (a b : String) : Bool :=
  chListLe a.toList b.toList

/-- `listStartsWith pat l`: `pat` is a literal starting segment of `l`. -/
def listStartsWith : List Char → List Char → Bool
  | [], _ => true
  | _ :: _, [] => false
  | a :: as, b :: bs => a = b && listStartsWith as bs

/-- `containsAux pat l`: `pat` occurs as a contiguous run inside `l`. -/
def containsAux (pat : List Char) : List Char → Bool
  | [] => pat.isEmpty
  | c :: cs => listStartsWith pat (c :: cs) || containsAux pat cs

/-- ASCII lower-casing of one character, as SQL `lower()` acts on the
ASCII range (the case folding ILIKE applies). -/
def lowerChar (c : Char) : Char :=
  if 65 ≤ c.toNat && c.toNat ≤ 90 then Char.ofNat (c.toNat + 32) else c

/-- SQL `value ILIKE '%' || pat || '%'` as used by `GetAll`:
case-insensitive containment of `pat` in `value`.  LIKE wildcard
characters inside the user-supplied value are not modelled; the pattern is
treated as a literal substring (no claim depends on wildcards). -/
def ilikeContains (value pat : String) : Bool :=
  containsAux (pat.toList.map lowerChar) (value.toList.map lowerChar)

/-- Go `time.Parse("01-2006", s)` outcome: exactly two digits, a dash, four
digits, month in 1..12; returns (month, year) on success. -/
def parseMonthYear (s : String) : Option (Nat × Nat) :=
  match s.toList with
  | [m1, m2, '-', y1, y2, y3, y4] =>
    if m1.isDigit && m2.isDigit && y1.isDigit && y2.isDigit && y3.isDigit && y4.isDigit then
      let m := (m1.toNat - 48) * 10 + (m2.toNat - 48)
      let y := (y1.toNat - 48) * 1000 + (y2.toNat - 48) * 100 +
        (y3.toNat - 48) * 10 + (y4.toNat - 48)
      if 1 ≤ m && m ≤ 12 then some (m, y) else none
    else none
  | _ => none

/-- Chronological (calendar) order on parsed (month, year) pairs: by year,
then by month.  This is the order the spec's dates carry as months; the
code never uses it — it is here only to be compared with `strLe`. -/
def monthYearLe (a b : Nat × Nat) : Bool :=
  a.2 < b.2 || (a.2 = b.2 && a.1 ≤ b.1)

/-! ## `PostgresRepository.GetAll` (List) -/

/-- `GetAll`'s `user_id = $n` condition; skipped (always true) when the
filter field is nil or the empty string, mirroring
`filter.UserID != nil && *filter.UserID != ""`. -/
def userIdCond (f : SubscriptionFilter) (r : Subscription) : Bool :=
  match f.user_id with
  | none => true
  | some u => if u = "" then true else r.user_id = u

/-- `GetAll`'s `service_name ILIKE '%' || s || '%'` condition; skipped when
nil or empty. -/
def serviceNameCondList (f : SubscriptionFilter) (r : Subscription) : Bool :=
  match f.service_name with
  | none => true
  | some s => if s = "" then true else ilikeContains r.service_name s

/-- `GetAll`'s `start_date >= $n` condition; skipped when nil or empty. -/
def startDateCond (f : SubscriptionFilter) (r : Subscription) : Bool :=
  match f.start_date with
  | none => true
  | some d => if d = "" then true else strLe d r.start_date

/-- `GetAll`'s `(end_date <= $n OR end_date IS NULL)` condition; skipped
when nil or empty. -/
def endDateCond (f : SubscriptionFilter) (r : Subscription) : Bool :=
  match f.end_date with
  | none => true
  | some d =>
    if d = "" then true
    else
      match r.end_date with
      | none => true
      | some e => strLe e d

/-- The conjunctive WHERE predicate `GetAll` builds from the filter. -/
def matchesFilter (f : SubscriptionFilter) (r : Subscription) : Bool :=
  userIdCond f r && serviceNameCondList f r && startDateCond f r && endDateCond f r

/-- Stable insertion of a row into a list already arranged by `created_at`
descending: rows with a strictly larger `created_at` are passed over, so a
tie keeps the incoming row first (storage-native order for ties). -/
def insertDesc (r : Subscription) : List Subscription → List Subscription
  | [] => [r]
  | x :: xs =>
    if r.created_at < x.created_at then x :: insertDesc r xs
    else r :: x :: xs

/-- `ORDER BY created_at DESC` with ties left in storage-native row order
(the spec's stated tie policy): a stable descending insertion sort. -/
def sortCreatedDesc (l : List Subscription) : List Subscription :=
  l.foldr insertDesc []

/-- `PostgresRepository.GetAll`: SELECT with the dynamically built
conjunctive predicate, ordered by `created_at` descending. -/
def GetAll (f : SubscriptionFilter) (table : List Subscription) : List Subscription :=
  sortCreatedDesc (table.filter (matchesFilter f))

/-! ## `PostgresRepository.Create` -/

/-- `PostgresRepository.Create`: assigns `uuid.New()` (`freshId`) and two
successive `time.Now()` reads — `now1` into `CreatedAt`, then `now2` into
`UpdatedAt`, exactly as the two calls appear in the source — and inserts
the row.  Returns the populated row and the new table. -/
def Create (req : CreateSubscriptionRequest) (freshId now1 now2 : Nat)
    (table : List Subscription) : Subscription × List Subscription :=
  let sub : Subscription :=
    { id := freshId
      service_name := req.service_name
      price := req.price
      user_id := req.user_id
      start_date := req.start_date
      end_date := req.end_date
      created_at := now1
      updated_at := now2 }
  (sub, table ++ [sub])

/-! ## `PostgresRepository.Update` -/

/-- Outcome of the repository `Update`: success with the new table,
`sql.ErrNoRows` (zero rows affected), or a persistence error — a distinct
constructor, as in Go these are distinct error values. -/
inductive UpdateResult where
  | ok (table : List Subscription)
  | notFound
  | storeErr
deriving DecidableEq, Repr

/-- True when the PATCH body supplied at least one of
{service_name, price, end_date} (the `len(updates) == 0` test negated). -/
def suppliesField (req : UpdateSubscriptionRequest) : Bool :=
  req.service_name.isSome || req.price.isSome || req.end_date.isSome

/-- The effect of the generated UPDATE statement on one matching row:
`updated_at = now` plus one assignment per supplied field. -/
def applyUpdate (req : UpdateSubscriptionRequest) (now : Nat)
    (r : Subscription) : Subscription :=
  { r with
    updated_at := now
    service_name := req.service_name.getD r.service_name
    price := req.price.getD r.price
    end_date :=
      match req.end_date with
      | some e => some e
      | none => r.end_date }

/-- `PostgresRepository.Update`: if no field is supplied it returns `nil`
before touching the database (the table is unchanged, `updated_at`
included); otherwise it executes the UPDATE, and zero affected rows is
reported as `sql.ErrNoRows`. -/
def Update (id : Nat) (req : UpdateSubscriptionRequest) (now : Nat)
    (table : List Subscription) : UpdateResult :=
  if suppliesField req then
    if table.countP (fun r => r.id = id) = 0 then .notFound
    else .ok (table.map (fun r => if r.id = id then applyUpdate req now r else r))
  else .ok table

/-! ## `PostgresRepository.GetTotalCost` -/

/-- The fixed window-overlap test of `GetTotalCost`:
`start_date <= endBound AND (end_date IS NULL OR end_date >= startBound)`,
string comparisons as issued. -/
def overlapsWindow (startB endB : String) (r : Subscription) : Bool :=
  strLe r.start_date endB &&
    (match r.end_date with
     | none => true
     | some e => strLe startB e)

/-- `GetTotalCost`'s `service_name = $n` condition — plain equality, not
ILIKE; skipped when nil or empty. -/
def serviceNameCondCost (f : SubscriptionFilter) (r : Subscription) : Bool :=
  match f.service_name with
  | none => true
  | some s => if s = "" then true else r.service_name = s

/-- The full WHERE predicate of `GetTotalCost`: window overlap plus the
optional exact user_id / service_name conditions. -/
def matchesCost (f : SubscriptionFilter) (startB endB : String)
    (r : Subscription) : Bool :=
  overlapsWindow startB endB r && userIdCond f r && serviceNameCondCost f r

/-- `PostgresRepository.GetTotalCost`: `COALESCE(SUM(price), 0), COUNT(*)`
over the rows satisfying the predicate; an empty selection yields (0, 0)
as a successful result. -/
def GetTotalCost (f : SubscriptionFilter) (startB endB : String)
    (table : List Subscription) : Int × Nat :=
  let rows := table.filter (matchesCost f startB endB)
  ((rows.map (fun r => r.price)).sum, rows.length)

/-! ## Validation & request layer (`SubscriptionHandler`) -/

/-- A store operation actually invoked by a handler; used to record that
validation failures never reach the store. -/
inductive StoreOp where
  | createOp
  | updateOp
deriving DecidableEq, Repr

/-- What a handler produces: the HTTP status, the table after the request,
and the store operations it invoked, in order. -/
structure HandlerOutcome where
  status : Nat
  table : List Subscription
  calls : List StoreOp
deriving DecidableEq, Repr

/-- `SubscriptionHandler.CreateSubscription`.  `uuidParse` embeds the
external `uuid.Parse` (`none` = parse failure); `body = none` embeds a
`ShouldBindJSON` failure.  Checks run in source order: body, start_date,
end_date (when supplied), user_id; each failure answers 400 with no store
call.  On success the repository `Create` runs (`freshId`, `now1`, `now2`
are its uuid.New and two time.Now reads) and the handler answers 201. -/
def CreateSubscription (uuidParse : String → Option Nat)
    (body : Option CreateSubscriptionRequest) (freshId now1 now2 : Nat)
    (table : List Subscription) : HandlerOutcome :=
  match body with
  | none => ⟨400, table, []⟩
  | some req =>
    if (parseMonthYear req.start_date).isNone then ⟨400, table, []⟩
    else if (match req.end_date with
             | some e => (parseMonthYear e).isNone
             | none => false) then ⟨400, table, []⟩
    else
      match uuidParse req.user_id with
      | none => ⟨400, table, []⟩
      | some _ =>
        let p := Create req freshId now1 now2 table
        ⟨201, p.2, [StoreOp.createOp]⟩

/-- The repository call of the PATCH handler, with the status mapping of
its error branch: `sql.ErrNoRows` (compared by error text in the source)
answers 404, any other store error 500, success 200. -/
def updateExec (id : Nat) (req : UpdateSubscriptionRequest) (now : Nat)
    (table : List Subscription) : HandlerOutcome :=
  match Update id req now table with
  | .ok t => ⟨200, t, [StoreOp.updateOp]⟩
  | .notFound => ⟨404, table, [StoreOp.updateOp]⟩
  | .storeErr => ⟨500, table, [StoreOp.updateOp]⟩

/-- `SubscriptionHandler.UpdateSubscription`: path id parse, body bind,
end_date format check (when supplied) — each failure answers 400 with no
store call — then the repository `Update` with the handler's `time.Now`
read `now`. -/
def UpdateSubscription (uuidParse : String → Option Nat) (idStr : String)
    (body : Option UpdateSubscriptionRequest) (now : Nat)
    (table : List Subscription) : HandlerOutcome :=
  match uuidParse idStr with
  | none => ⟨400, table, []⟩
  | some id =>
    match body with
    | none => ⟨400, table, []⟩
    | some req =>
      if (match req.end_date with
          | some e => (parseMonthYear e).isNone
          | none => false) then ⟨400, table, []⟩
      else updateExec id req now table

/-- A create request that fails the handler's validation: malformed body,
unparseable start_date, unparseable supplied end_date, or a user_id that
`uuid.Parse` rejects. -/
def createRequestInvalid (uuidParse : String → Option Nat) :
    Option CreateSubscriptionRequest → Bool
  | none => true
  | some req =>
    (parseMonthYear req.start_date).isNone ||
    (match req.end_date with
     | some e => (parseMonthYear e).isNone
     | none => false) ||
    (uuidParse req.user_id).isNone

/-- An update request that fails the handler's validation: malformed path
id, malformed body, or unparseable supplied end_date. -/
def updateRequestInvalid (uuidParse : String → Option Nat) (idStr : String) :
    Option UpdateSubscriptionRequest → Bool
  | none => true
  | some req =>
    (uuidParse idStr).isNone ||
    (match req.end_date with
     | some e => (parseMonthYear e).isNone
     | none => false)

/-! ## Helper lemmas about the embedded ORDER BY -/

lemma insertDesc_perm (r : Subscription) (l : List Subscription) :
    List.Perm (insertDesc r l) (r :: l) := by
  induction l with
  | nil => simp [insertDesc]
  | cons x xs ih =>
    by_cases h : r.created_at < x.created_at
    · simp only [insertDesc, if_pos h]
      exact (ih.cons x).trans (List.Perm.swap r x xs)
    · simp [insertDesc, if_neg h]

lemma sortCreatedDesc_perm (l : List Subscription) :
    List.Perm (sortCreatedDesc l) l := by
  induction l with
  | nil => simp [sortCreatedDesc]
  | cons x xs ih =>
    exact (insertDesc_perm x (sortCreatedDesc xs)).trans (ih.cons x)

lemma mem_insertDesc {a r : Subscription} {l : List Subscription} :
    a ∈ insertDesc r l ↔ a = r ∨ a ∈ l := by
  rw [(insertDesc_perm r l).mem_iff]
  simp

lemma mem_sortCreatedDesc {a : Subscription} {l : List Subscription} :
    a ∈ sortCreatedDesc l ↔ a ∈ l :=
  (sortCreatedDesc_perm l).mem_iff

lemma pairwise_insertDesc (r : Subscription) (l : List Subscription)
    (h : l.Pairwise (fun a b => b.created_at ≤ a.created_at)) :
    (insertDesc r l).Pairwise (fun a b => b.created_at ≤ a.created_at) := by
  induction l with
  | nil => simp [insertDesc]
  | cons x xs ih =>
    rcases List.pairwise_cons.mp h with ⟨hx, hxs⟩
    by_cases hlt : r.created_at < x.created_at
    · simp only [insertDesc, if_pos hlt]
      refine List.pairwise_cons.mpr ⟨?_, ih hxs⟩
      intro y hy
      rcases mem_insertDesc.mp hy with rfl | hy'
      · exact Nat.le_of_lt hlt
      · exact hx y hy'
    · simp only [insertDesc, if_neg hlt]
      refine List.pairwise_cons.mpr ⟨?_, h⟩
      intro y hy
      rcases List.mem_cons.mp hy with rfl | hy'
      · exact Nat.le_of_not_lt hlt
      · exact le_trans (hx y hy') (Nat.le_of_not_lt hlt)

lemma sortCreatedDesc_pairwise (l : List Subscription) :
    (sortCreatedDesc l).Pairwise (fun a b => b.created_at ≤ a.created_at) := by
  induction l with
  | nil => simp [sortCreatedDesc]
  | cons x xs ih => exact pairwise_insertDesc x (sortCreatedDesc xs) ih

lemma filter_insertDesc (c : Nat) (r : Subscription) (l : List Subscription) :
    (insertDesc r l).filter (fun x => x.created_at = c) =
      if r.created_at = c then r :: l.filter (fun x => x.created_at = c)
      else l.filter (fun x => x.created_at = c) := by
  induction l with
  | nil => by_cases hrc : r.created_at = c <;> simp [insertDesc, hrc]
  | cons x xs ih =>
    by_cases hlt : r.created_at < x.created_at
    · simp only [insertDesc, if_pos hlt, List.filter_cons, ih]
      by_cases hrc : r.created_at = c
      · have hxc : ¬ x.created_at = c := by omega
        simp [hrc, hxc]
      · simp [hrc]
    · simp only [insertDesc, if_neg hlt, List.filter_cons]
      by_cases hrc : r.created_at = c <;> simp [hrc]

lemma filter_sortCreatedDesc (c : Nat) (l : List Subscription) :
    (sortCreatedDesc l).filter (fun x => x.created_at = c) =
      l.filter (fun x => x.created_at = c) := by
  induction l with
  | nil => simp [sortCreatedDesc]
  | cons x xs ih =>
    show (insertDesc x (sortCreatedDesc xs)).filter _ = _
    rw [filter_insertDesc, ih, List.filter_cons]
    by_cases hxc : x.created_at = c <;> simp [hxc]

lemma mem_GetAll {f : SubscriptionFilter} {t : List Subscription}
    {r : Subscription} :
    r ∈ GetAll f t ↔ r ∈ t ∧ matchesFilter f r = true := by
  unfold GetAll
  rw [mem_sortCreatedDesc, List.mem_filter]

/-! ## Concrete fixtures used by witnesses and counterexamples -/

/-- The spec's worked example body (§8). -/
def reqYandex : CreateSubscriptionRequest :=
  ⟨"Yandex Plus", 400, "60601fee-2bf1-4721-ae6f-7636e79a0cba", "07-2023", none⟩

/-- An active (no end_date) row starting January 2024. -/
def rowJan2024 : Subscription :=
  ⟨1, "Svc", 100, "u1", "01-2024", none, 0, 0⟩

/-- An active row starting December 2023. -/
def rowDec2023 : Subscription :=
  ⟨2, "Svc", 250, "u2", "12-2023", none, 0, 0⟩

/-- An active row with a non-empty service name. -/
def rowNetflix : Subscription :=
  ⟨3, "Netflix", 400, "u1", "01-2023", none, 0, 0⟩

/-- An active row starting September 2023. -/
def rowSept2023 : Subscription :=
  ⟨4, "Svc", 50, "u3", "09-2023", none, 0, 0⟩

/-- A stored row whose timestamps predate the clock values used in update
fixtures. -/
def rowPlain : Subscription :=
  ⟨1, "Svc", 100, "u0", "01-2023", none, 2, 5⟩

/-- `rowPlain` after an update that sets only service_name at time 10. -/
def rowPlainUpd : Subscription :=
  ⟨1, "New", 100, "u0", "01-2023", none, 2, 10⟩

/-- A PATCH body supplying only service_name. -/
def reqSetName : UpdateSubscriptionRequest := ⟨some "New", none, none⟩

/-- A PATCH body supplying no field at all. -/
def reqNoop : UpdateSubscriptionRequest := ⟨none, none, none⟩

/-- A filter whose every field is absent or the empty string — what the
HTTP layer produces for an empty query string. -/
def filterEmptyish (f : SubscriptionFilter) : Prop :=
  (f.user_id = none ∨ f.user_id = some "") ∧
  (f.service_name = none ∨ f.service_name = some "") ∧
  (f.start_date = none ∨ f.start_date = some "") ∧
  (f.end_date = none ∨ f.end_date = some "")

lemma matchesFilter_of_emptyish (f : SubscriptionFilter) (r : Subscription)
    (h : filterEmptyish f) : matchesFilter f r = true := by
  obtain ⟨h1, h2, h3, h4⟩ := h
  unfold matchesFilter userIdCond serviceNameCondList startDateCond endDateCond
  rcases h1 with h1 | h1 <;> rcases h2 with h2 | h2 <;> rcases h3 with h3 | h3 <;>
    rcases h4 with h4 | h4 <;> simp [h1, h2, h3, h4]

/-- The frame relation between a pre-update row and its post-update image,
for `Update id req now`: identity, owner, start date and creation time are
untouched; an unaffected row is wholly unchanged; the affected row takes
`updated_at = now` (strictly later than its old value) and exactly the
supplied fields. -/
def FrameOk (id : Nat) (req : UpdateSubscriptionRequest) (now : Nat)
    (r r' : Subscription) : Prop :=
  (r'.id = r.id ∧ r'.user_id = r.user_id ∧ r'.start_date = r.start_date ∧
    r'.created_at = r.created_at) ∧
  (r.id ≠ id → r' = r) ∧
  (r.id = id →
    r.updated_at < r'.updated_at ∧ r'.updated_at = now ∧
    r'.service_name = req.service_name.getD r.service_name ∧
    r'.price = req.price.getD r.price ∧
    r'.end_date = (match req.end_date with
      | some e => some e
      | none => r.end_date))

/-! ## Claims -/

/-- C4, counterexample: `PostgresRepository.Create` takes two separate
`time.Now()` readings, `CreatedAt` from the first and `UpdatedAt` from the
second; when the readings differ (here 0 and 1) the persisted row has
`created_at ≠ updated_at`, so "created_at equal to updated_at at creation
time" fails on the code as written. -/
theorem create_timestamps_counterexample :
    (Create reqYandex 7 0 1 []).1.created_at ≠
      (Create reqYandex 7 0 1 []).1.updated_at := by decide

/-- C4, amended: the persisted row's `created_at` is the first clock
reading and `updated_at` the second; under a monotone clock
`created_at ≤ updated_at`, with equality exactly when the two readings
coincide. -/
theorem create_timestamps_order (req : CreateSubscriptionRequest)
    (fid n1 n2 : Nat) (t : List Subscription) (h : n1 ≤ n2) :
    (Create req fid n1 n2 t).1.created_at = n1 ∧
    (Create req fid n1 n2 t).1.updated_at = n2 ∧
    (Create req fid n1 n2 t).1.created_at ≤ (Create req fid n1 n2 t).1.updated_at ∧
    ((Create req fid n1 n2 t).1.created_at = (Create req fid n1 n2 t).1.updated_at ↔
      n1 = n2) :=
  ⟨rfl, rfl, h, Iff.rfl⟩

/-- Witness for C4's amended theorem at the spec's example body with clock
readings 5 and 5. -/
theorem create_timestamps_order_witness :
    5 ≤ 5 ∧
    ((Create reqYandex 7 5 5 []).1.created_at = 5 ∧
     (Create reqYandex 7 5 5 []).1.updated_at = 5 ∧
     (Create reqYandex 7 5 5 []).1.created_at ≤ (Create reqYandex 7 5 5 []).1.updated_at ∧
     ((Create reqYandex 7 5 5 []).1.created_at = (Create reqYandex 7 5 5 []).1.updated_at ↔
       (5 : Nat) = 5)) :=
  ⟨by decide, create_timestamps_order reqYandex 7 5 5 [] (by decide)⟩

/-- C5: every date bound is compared by `strLe`, raw lexicographic string
order on the "MM-YYYY" text — the order the repository's SQL `<=`/`>=`
comparisons use on the VARCHAR date columns — and this disagrees with
chronological month order across calendar years: "01-2024" sorts below
"12-2023", so `GetAll` with start_date lower bound "12-2023" drops a row
starting January 2024, and `GetTotalCost` over the window
["01-2024", "02-2024"] misses an active row started December 2023. -/
theorem date_bounds_lexicographic :
    strLe "01-2024" "12-2023" = true ∧
    parseMonthYear "01-2024" = some (1, 2024) ∧
    parseMonthYear "12-2023" = some (12, 2023) ∧
    monthYearLe (12, 2023) (1, 2024) = true ∧
    monthYearLe (1, 2024) (12, 2023) = false ∧
    GetAll ⟨none, none, some "12-2023", none⟩ [rowJan2024] = [] ∧
    GetTotalCost ⟨none, none, none, none⟩ "01-2024" "02-2024" [rowDec2023] = (0, 0) := by
  decide

/-- C7, counterexample: a filter field explicitly supplied as the empty
string IS given exactly the no-predicate treatment of an absent field
(the source guards every condition with `*field != ""`, and
`getStringPointer` already turns `""` into nil): with service_name
supplied as `""`, `GetTotalCost` and `GetAll` behave identically to the
absent filter and count a row whose service_name is not `""`. -/
theorem empty_string_filter_counterexample :
    GetTotalCost ⟨none, some "", none, none⟩ "01-2023" "12-2023" [rowNetflix] =
      GetTotalCost ⟨none, none, none, none⟩ "01-2023" "12-2023" [rowNetflix] ∧
    GetTotalCost ⟨none, some "", none, none⟩ "01-2023" "12-2023" [rowNetflix] = (400, 1) ∧
    rowNetflix.service_name ≠ "" ∧
    GetAll ⟨none, some "", none, none⟩ [rowNetflix] =
      GetAll ⟨none, none, none, none⟩ [rowNetflix] ∧
    getStringPointer "" = none := by
  decide

/-- C7, amended: each optional filter field contributes its condition
independently, and a field supplied as the empty string is conflated with
absence — both impose no predicate (never an empty-string match), in
`GetAll`'s and `GetTotalCost`'s predicates alike, and already at the HTTP
layer via `getStringPointer`. -/
theorem empty_string_filter_amended (f : SubscriptionFilter)
    (r : Subscription) (sb eb : String) :
    matchesFilter { f with user_id := some "" } r =
      matchesFilter { f with user_id := none } r ∧
    matchesFilter { f with service_name := some "" } r =
      matchesFilter { f with service_name := none } r ∧
    matchesFilter { f with start_date := some "" } r =
      matchesFilter { f with start_date := none } r ∧
    matchesFilter { f with end_date := some "" } r =
      matchesFilter { f with end_date := none } r ∧
    matchesCost { f with user_id := some "" } sb eb r =
      matchesCost { f with user_id := none } sb eb r ∧
    matchesCost { f with service_name := some "" } sb eb r =
      matchesCost { f with service_name := none } sb eb r ∧
    getStringPointer "" = none := by
  refine ⟨?_, ?_, ?_, ?_, ?_, ?_, rfl⟩ <;>
    simp [matchesFilter, matchesCost, userIdCond, serviceNameCondList,
      startDateCond, endDateCond, serviceNameCondCost]

/-- C8: `GetTotalCost`'s optional user_id and service_name conditions are
plain equality — any row its predicate admits carries exactly the supplied
strings — unlike `GetAll`'s case-insensitive substring condition, which
admits "Netflix" for the pattern "flix" while the cost condition rejects
it. -/
theorem total_cost_exact_match (f : SubscriptionFilter) (sb eb : String)
    (r : Subscription) :
    (∀ s, f.service_name = some s → s ≠ "" →
      matchesCost f sb eb r = true → r.service_name = s) ∧
    (∀ u, f.user_id = some u → u ≠ "" →
      matchesCost f sb eb r = true → r.user_id = u) ∧
    serviceNameCondList ⟨none, some "flix", none, none⟩ rowNetflix = true ∧
    serviceNameCondCost ⟨none, some "flix", none, none⟩ rowNetflix = false := by
  refine ⟨?_, ?_, by decide, by decide⟩
  · intro s hs hne hm
    simp only [matchesCost, Bool.and_eq_true] at hm
    have hc := hm.2
    simp only [serviceNameCondCost, hs] at hc
    rw [if_neg hne] at hc
    exact of_decide_eq_true hc
  · intro u hu hne hm
    simp only [matchesCost, Bool.and_eq_true] at hm
    have hc := hm.1.2
    simp only [userIdCond, hu] at hc
    rw [if_neg hne] at hc
    exact of_decide_eq_true hc

/-- Witness for C8 on a concrete row matched by an exact service_name and
user_id filter. -/
theorem total_cost_exact_match_witness :
    (⟨some "u1", some "Netflix", none, none⟩ : SubscriptionFilter).service_name =
      some "Netflix" ∧
    "Netflix" ≠ "" ∧
    matchesCost ⟨some "u1", some "Netflix", none, none⟩ "01-2023" "12-2023" rowNetflix =
      true ∧
    rowNetflix.service_name = "Netflix" ∧
    rowNetflix.user_id = "u1" :=
  ⟨rfl, by decide, by decide,
    (total_cost_exact_match ⟨some "u1", some "Netflix", none, none⟩
      "01-2023" "12-2023" rowNetflix).1 "Netflix" rfl (by decide) (by decide),
    (total_cost_exact_match ⟨some "u1", some "Netflix", none, none⟩
      "01-2023" "12-2023" rowNetflix).2.1 "u1" rfl (by decide) (by decide)⟩

/-- C9: when no stored row's active interval overlaps the requested
window, `GetTotalCost` returns (0, 0) — `COALESCE(SUM(price), 0)` and
`COUNT(*)` over an empty selection — as a successful result, whatever the
optional filters are. -/
theorem total_cost_empty_window (f : SubscriptionFilter) (sb eb : String)
    (t : List Subscription)
    (h : ∀ r ∈ t, overlapsWindow sb eb r = false) :
    GetTotalCost f sb eb t = (0, 0) := by
  have hfil : t.filter (matchesCost f sb eb) = [] := by
    rw [List.filter_eq_nil_iff]
    intro r hr
    simp [matchesCost, h r hr]
  simp [GetTotalCost, hfil]

/-- Witness for C9: a window ending before the only row starts. -/
theorem total_cost_empty_window_witness :
    (∀ r ∈ [rowSept2023], overlapsWindow "01-2019" "01-2020" r = false) ∧
    GetTotalCost ⟨none, none, none, none⟩ "01-2019" "01-2020" [rowSept2023] = (0, 0) :=
  ⟨by decide,
    total_cost_empty_window ⟨none, none, none, none⟩ "01-2019" "01-2020"
      [rowSept2023] (by decide)⟩

/-- C1, counterexample: the claim quantifies over "any subset of
{service_name, price, end_date}", and for the empty subset `Update`
returns success before issuing any SQL, leaving `updated_at` untouched —
so "updated_at strictly increases" fails on a successful update with no
supplied fields. -/
theorem update_noop_counterexample :
    ¬ (∀ t', Update 1 reqNoop 10 [rowPlain] = UpdateResult.ok t' →
        ∀ r' ∈ t', rowPlain.updated_at < r'.updated_at) := by
  intro hcl
  have h := hcl [rowPlain] (by decide) rowPlain (by simp)
  exact absurd h (by decide)

/-- C1, amended (any NONEMPTY subset): a successful `Update` supplying at
least one of {service_name, price, end_date} changes only the supplied
fields; id, user_id, start_date and created_at of every row are identical
to their pre-update values, unaffected rows are wholly unchanged, and the
affected row's updated_at strictly increases (the clock reading being
later than every stored updated_at). -/
theorem update_frame_effect (id : Nat) (req : UpdateSubscriptionRequest)
    (now : Nat) (t t' : List Subscription) (hf : suppliesField req = true)
    (hclk : ∀ r ∈ t, r.updated_at < now)
    (h : Update id req now t = UpdateResult.ok t') :
    List.Forall₂ (FrameOk id req now) t t' := by
  simp only [Update, hf, if_true] at h
  split at h
  · simp at h
  · have ht : t' = t.map (fun r => if r.id = id then applyUpdate req now r else r) := by
      injection h with h'
      exact h'.symm
    subst ht
    rw [List.forall₂_map_right_iff, List.forall₂_same]
    intro r hr
    by_cases hid : r.id = id
    · simp only [if_pos hid]
      refine ⟨⟨rfl, rfl, rfl, rfl⟩, fun hne => absurd hid hne, fun _ => ?_⟩
      exact ⟨hclk r hr, rfl, rfl, rfl, rfl⟩
    · simp only [if_neg hid]
      exact ⟨⟨rfl, rfl, rfl, rfl⟩, fun _ => rfl, fun hid2 => absurd hid2 hid⟩

/-- Witness for C1's amended theorem: setting only service_name on a
one-row table. -/
theorem update_frame_effect_witness :
    suppliesField reqSetName = true ∧
    (∀ r ∈ [rowPlain], r.updated_at < 10) ∧
    Update 1 reqSetName 10 [rowPlain] = UpdateResult.ok [rowPlainUpd] ∧
    List.Forall₂ (FrameOk 1 reqSetName 10) [rowPlain] [rowPlainUpd] :=
  ⟨by decide, by decide, by decide,
    update_frame_effect 1 reqSetName 10 [rowPlain] [rowPlainUpd]
      (by decide) (by decide) (by decide)⟩

/-- C2: when at least one field is supplied, `Update` reports
`sql.ErrNoRows` exactly when no row carries the id (zero rows affected);
with no field supplied it succeeds untouched as a no-op; and the handler
keeps "not found" distinct from a persistence error (404 exactly for
`sql.ErrNoRows`, 500 for a store error — distinct constructors in the
result type). -/
theorem update_not_found_iff (id : Nat) (req : UpdateSubscriptionRequest)
    (now : Nat) (t : List Subscription) :
    (suppliesField req = true →
      (Update id req now t = UpdateResult.notFound ↔ ∀ r ∈ t, r.id ≠ id)) ∧
    (suppliesField req = false → Update id req now t = UpdateResult.ok t) ∧
    ((updateExec id req now t).status = 404 ↔
      Update id req now t = UpdateResult.notFound) ∧
    UpdateResult.notFound ≠ UpdateResult.storeErr := by
  refine ⟨?_, ?_, ?_, by decide⟩
  · intro hs
    simp only [Update, hs, if_true]
    split
    · rename_i hc
      rw [List.countP_eq_zero] at hc
      simp only [decide_eq_true_eq] at hc
      exact ⟨fun _ => hc, fun _ => rfl⟩
    · rename_i hc
      constructor
      · intro h'
        exact absurd h' (by simp)
      · intro hall
        exfalso
        apply hc
        rw [List.countP_eq_zero]
        intro r hr
        simp only [decide_eq_true_eq]
        exact hall r hr
  · intro hs
    simp [Update, hs]
  · cases hU : Update id req now t with
    | ok t2 => simp [updateExec, hU]
    | notFound => simp [updateExec, hU]
    | storeErr => simp [updateExec, hU]

/-- Witness for C2 on a one-row table whose id does not match. -/
theorem update_not_found_iff_witness :
    suppliesField reqSetName = true ∧
    (Update 5 reqSetName 3 [rowNetflix] = UpdateResult.notFound ↔
      ∀ r ∈ [rowNetflix], r.id ≠ 5) :=
  ⟨by decide, (update_not_found_iff 5 reqSetName 3 [rowNetflix]).1 (by decide)⟩

/-- C3: when the filter carries an end_date bound, the
`(end_date <= bound OR end_date IS NULL)` condition restricts only rows
with a present end_date — a row with an absent (NULL) end_date is returned
by `GetAll` exactly as it would be with the bound removed. -/
theorem list_end_date_only_finite (f : SubscriptionFilter)
    (t : List Subscription) (r : Subscription) (e : String)
    (hf : f.end_date = some e) (hr : r.end_date = none) :
    (r ∈ GetAll f t ↔ r ∈ GetAll { f with end_date := none } t) := by
  rw [mem_GetAll, mem_GetAll]
  have h1 : endDateCond f r = true := by
    simp [endDateCond, hf, hr]
  have h2 : endDateCond { f with end_date := none } r = true := by
    simp [endDateCond]
  have h3 : matchesFilter f r = matchesFilter { f with end_date := none } r := by
    simp only [matchesFilter, h1, h2]
    rfl
  rw [h3]

/-- Witness for C3: an active row and a filter with an end_date bound. -/
theorem list_end_date_only_finite_witness :
    (⟨none, none, none, some "06-2023"⟩ : SubscriptionFilter).end_date =
      some "06-2023" ∧
    rowNetflix.end_date = none ∧
    (rowNetflix ∈ GetAll ⟨none, none, none, some "06-2023"⟩ [rowNetflix] ↔
      rowNetflix ∈ GetAll
        { (⟨none, none, none, some "06-2023"⟩ : SubscriptionFilter) with
          end_date := none } [rowNetflix]) :=
  ⟨rfl, rfl,
    list_end_date_only_finite ⟨none, none, none, some "06-2023"⟩ [rowNetflix]
      rowNetflix "06-2023" rfl rfl⟩

/-- C10: with every filter field absent or empty, `GetAll` returns exactly
the stored rows (a permutation of the table), ordered by created_at
descending, and ties keep the storage-native row order (for each creation
time, the returned sub-sequence equals the stored one — no secondary
tie-break); `GetAll` is a pure function of the table, so repeated calls
absent mutation return the same sequence. -/
theorem list_empty_filter_returns_all (f : SubscriptionFilter)
    (t : List Subscription) (h : filterEmptyish f) :
    List.Perm (GetAll f t) t ∧
    (GetAll f t).Pairwise (fun a b => b.created_at ≤ a.created_at) ∧
    ∀ c, (GetAll f t).filter (fun r => r.created_at = c) =
      t.filter (fun r => r.created_at = c) := by
  have hfil : t.filter (matchesFilter f) = t :=
    List.filter_eq_self.mpr (fun r _ => matchesFilter_of_emptyish f r h)
  refine ⟨?_, ?_, ?_⟩
  · rw [GetAll, hfil]
    exact sortCreatedDesc_perm t
  · rw [GetAll]
    exact sortCreatedDesc_pairwise _
  · intro c
    rw [GetAll, hfil]
    exact filter_sortCreatedDesc c t

/-- Witness for C10 on a three-row table with a creation-time tie. -/
theorem list_empty_filter_returns_all_witness :
    filterEmptyish ⟨none, some "", none, none⟩ ∧
    (List.Perm (GetAll ⟨none, some "", none, none⟩ [rowJan2024, rowDec2023, rowNetflix])
        [rowJan2024, rowDec2023, rowNetflix] ∧
      (GetAll ⟨none, some "", none, none⟩ [rowJan2024, rowDec2023, rowNetflix]).Pairwise
        (fun a b => b.created_at ≤ a.created_at) ∧
      ∀ c, (GetAll ⟨none, some "", none, none⟩
          [rowJan2024, rowDec2023, rowNetflix]).filter (fun r => r.created_at = c) =
        [rowJan2024, rowDec2023, rowNetflix].filter (fun r => r.created_at = c)) :=
  ⟨⟨Or.inl rfl, Or.inr rfl, Or.inl rfl, Or.inl rfl⟩,
    list_empty_filter_returns_all ⟨none, some "", none, none⟩
      [rowJan2024, rowDec2023, rowNetflix]
      ⟨Or.inl rfl, Or.inr rfl, Or.inl rfl, Or.inl rfl⟩⟩

/-- C6: a create or update request that fails validation — malformed body,
start_date or a supplied end_date not parsing as "MM-YYYY", or a malformed
identifier — is answered 400 with the table unchanged and no store
operation invoked. -/
theorem validation_no_side_effects (uuidParse : String → Option Nat)
    (body_c : Option CreateSubscriptionRequest) (fid n1 n2 : Nat)
    (idStr : String) (body_u : Option UpdateSubscriptionRequest) (now : Nat)
    (t : List Subscription) :
    (createRequestInvalid uuidParse body_c = true →
      CreateSubscription uuidParse body_c fid n1 n2 t = ⟨400, t, []⟩) ∧
    (updateRequestInvalid uuidParse idStr body_u = true →
      UpdateSubscription uuidParse idStr body_u now t = ⟨400, t, []⟩) := by
  constructor
  · intro h
    cases body_c with
    | none => rfl
    | some req =>
      simp only [createRequestInvalid, Bool.or_eq_true] at h
      by_cases h1 : (parseMonthYear req.start_date).isNone = true
      · simp [CreateSubscription, h1]
      · by_cases h2 : (match req.end_date with
                       | some e => (parseMonthYear e).isNone
                       | none => false) = true
        · simp [CreateSubscription, h1, h2]
        · have h3 : (uuidParse req.user_id).isNone = true := by
            rcases h with (h | h) | h
            · exact absurd h h1
            · exact absurd h h2
            · exact h
          have h4 : uuidParse req.user_id = none :=
            Option.isNone_iff_eq_none.mp h3
          simp [CreateSubscription, h1, h2, h4]
  · intro h
    cases body_u with
    | none =>
      cases hid : uuidParse idStr with
      | none => simp [UpdateSubscription, hid]
      | some v => simp [UpdateSubscription, hid]
    | some req =>
      simp only [updateRequestInvalid, Bool.or_eq_true] at h
      cases hid : uuidParse idStr with
      | none => simp [UpdateSubscription, hid]
      | some v =>
        have h2 : (match req.end_date with
                   | some e => (parseMonthYear e).isNone
                   | none => false) = true := by
          rcases h with h | h
          · rw [hid] at h
            simp at h
          · exact h
        simp [UpdateSubscription, hid, h2]

/-- A concrete stand-in for the external `uuid.Parse`: accepts exactly one
identifier. -/
def uuidParseW : String → Option Nat :=
  fun s => if s = "ok-id" then some 7 else none

/-- A create body whose user_id `uuid.Parse` rejects. -/
def badCreateBody : Option CreateSubscriptionRequest :=
  some ⟨"S", 1, "nope", "07-2023", none⟩

/-- An update body whose end_date is in the wrong format. -/
def badUpdateBody : Option UpdateSubscriptionRequest :=
  some ⟨none, none, some "2023-07"⟩

/-- Witness for C6: a rejected user_id on create and a malformed end_date
on update, each answered 400 with no store call. -/
theorem validation_no_side_effects_witness :
    createRequestInvalid uuidParseW badCreateBody = true ∧
    updateRequestInvalid uuidParseW "ok-id" badUpdateBody = true ∧
    CreateSubscription uuidParseW badCreateBody 7 0 1 [rowNetflix] =
      ⟨400, [rowNetflix], []⟩ ∧
    UpdateSubscription uuidParseW "ok-id" badUpdateBody 9 [rowNetflix] =
      ⟨400, [rowNetflix], []⟩ :=
  ⟨by decide, by decide,
    (validation_no_side_effects uuidParseW badCreateBody 7 0 1 "ok-id"
      badUpdateBody 9 [rowNetflix]).1 (by decide),
    (validation_no_side_effects uuidParseW badCreateBody 7 0 1 "ok-id"
      badUpdateBody 9 [rowNetflix]).2 (by decide)⟩

end SubscribeService
